import Mathlib

/-!
Verification of the reacjilator Azure Functions HTTP trigger
(`src/HttpTrigger/index.js`).

The JavaScript handler is shallowly embedded below.  Each JS function
(`module.exports`, `events`, `getMessage`, `postTranslatedMessage`,
`isAlreadyPosted`, `postMessage`, `sleep`) becomes a Lean definition of the
same name.  JS values that may be `undefined` are modelled with `Option`;
thrown exceptions with `Except JsError`; and the observable side effects
(the jittered sleep, the three outbound network calls, and `context.log`
of a caught error) are recorded in an execution trace `List Action`, in
program order.  The behaviour of the outside world during one invocation
(the value of `Math.random()`, the outcome of the Slack fetch, the Google
translate call and the Slack post) is packaged in an `Env` record, so every
definition stays a pure, executable function of its inputs.
-/

set_option maxHeartbeats 1000000

namespace Reacjilator

/-- Runtime errors of the embedded JS: `typeError` for property access on
`undefined`, `jsError` for a rejected promise (network failure etc.). -/
inductive JsError where
  | typeError (msg : String)
  | jsError (msg : String)
deriving DecidableEq, Repr

deriving instance DecidableEq for Except

/-- Truthiness of a JS value that is either a string or `undefined`:
`undefined` and the empty string are falsy. -/
def truthy : Option String → Bool
  | none => false
  | some s => !s.isEmpty

/-- Slack message attachment, as built by `postMessage` and as read back by
`isAlreadyPosted` (`attachments[0].text`). -/
structure Attachment where
  pretext : Option String
  text : Option String
  footer : Option String
  mrkdwn_in : List String
deriving DecidableEq, Repr

/-- A message as returned by `conversations.replies`.  Fields the code never
reads are omitted; fields it reads optionally are `Option`s. -/
structure SlackMessage where
  text : Option String
  ts : String
  thread_ts : Option String
  subtype : Option String
  attachments : Option (List Attachment)
deriving DecidableEq, Repr

/-- Form-encoded arguments of the `chat.postMessage` call (the constant
`token` field is process configuration and is not modelled). -/
structure PostArgs where
  channel : String
  attachments : List Attachment
  as_user : Bool
  username : String
  thread_ts : String
deriving DecidableEq, Repr

/-- Observable effects of one invocation, in program order.  Informational
`context.log` calls carry no decision logic and are not traced; `logErr`
records the `context.log(err)` of a catch block. -/
inductive Action where
  | sleep (msec : ℚ)
  | fetchCall (channel ts : String)
  | translateCall (contents : Option String) (targetLanguageCode : String)
  | postCall (args : PostArgs)
  | logErr (e : JsError)
deriving DecidableEq, Repr

/-- One element of the `translations` array of a translate response. -/
structure Translation where
  translatedText : Option String
deriving DecidableEq, Repr

/-- Response of `translationClient.translateText`. -/
structure TransResponse where
  translations : List Translation
deriving DecidableEq, Repr

/-- Behaviour of the outside world during a single invocation.

`langcode` is modelled from the spec: the `./langcode` module is not part of
the analysed source and the spec treats it as "a finite, externally supplied
mapping" consumed "as a pure mapping capability"; it is an association list
keyed by country token.

`random` is the value drawn by `Math.random()`; `fetch`, `translate` and
`post` are the outcomes of the three remote calls (`.error` = the awaited
promise rejects / the client throws). -/
structure Env where
  langcode : List (String × String)
  random : ℚ
  fetch : Except JsError (Option (List SlackMessage))
  translate : Except JsError TransResponse
  post : Except JsError Unit

/-- Lookup `langcode[key]` followed by the `if (!lang)` truthiness test of
`events`: a key mapped to the empty string counts as absent. -/
def truthyLookup (lc : List (String × String)) (key : String) : Option String :=
  match List.lookup key lc with
  | some v => if v.isEmpty then none else some v
  | none => none

/-- JS `\w` character class (ASCII letters, digits, underscore). -/
def isWordChar (c : Char) : Bool := c.isAlphanum || c == '_'

/-- Whether the five characters `flag-` sit at the head of the remaining
input (the literal part of the lookahead `flag-\b`). -/
def flagDashHead (cs : List Char) : Bool :=
  cs.take 5 == ['f', 'l', 'a', 'g', '-']

/-- Word boundary directly after a `flag-` head: since `-` is a non-word
character, the boundary holds exactly when a word character follows. -/
def boundaryAfterFlag (cs : List Char) : Bool :=
  match cs.drop 5 with
  | c :: _ => isWordChar c
  | [] => false

/-- Leftmost match of the JS regex used in `events`,
`reaction.match(/(?!flag-\b)\b\w+/)`: scan for the first position carrying a
word boundary and a word character where the lookahead `flag-\b` fails, and
return the maximal `\w+` run from there.  `prevWord` records whether the
previous character was a word character (false at the start of input). -/
def scanToken : Bool → List Char → Option (List Char)
  | _, [] => none
  | prevWord, c :: rest =>
    if !prevWord && isWordChar c &&
        !(flagDashHead (c :: rest) && boundaryAfterFlag (c :: rest)) then
      some ((c :: rest).takeWhile isWordChar)
    else
      scanToken (isWordChar c) rest

/-- `reaction.match(/(?!flag-\b)\b\w+/)`, as the matched token (`[0]`). -/
def extractToken (s : String) : Option String :=
  (scanToken false s.data).map List.asString

/-- Substring test implementing the truthiness of matching the regex whose
sole literal is the five characters `flag-` anywhere in the input. -/
def hasFlagDash : List Char → Bool
  | [] => false
  | c :: rest => flagDashHead (c :: rest) || hasFlagDash rest

/-- Truthiness of the `reaction.match` test against the literal `flag-`
pattern in `events`. -/
def containsFlagDash (s : String) : Bool := hasFlagDash s.data

/-- Emoji-to-language resolution exactly as performed inline in `events`:
the flag branch extracts the token (a null match would make `[0]` throw);
the direct branch requires `reaction` to be an own key of `langcode`; both
end with `langcode[country]` and the `if (!lang) return` truthiness test. -/
def resolveLang (lc : List (String × String)) (reaction : String) :
    Except JsError (Option String) :=
  if containsFlagDash reaction then
    match extractToken reaction with
    | none => .error (.typeError "Cannot read properties of null (reading 0)")
    | some country => .ok (truthyLookup lc country)
  else
    if (lc.map Prod.fst).contains reaction then
      .ok (truthyLookup lc reaction)
    else
      .ok none

/-- Loop body accumulator of `isAlreadyPosted`: `alreadyPosted` starts
`false`; for each message, when `!alreadyPosted && m.subtype` the code
dereferences `m.attachments[0].text` (a `TypeError` when `attachments` is
`undefined` or empty) and compares it to `translation` with `===`
(`undefined === undefined` is true, hence `Option` equality). -/
def isAlreadyPostedAux (translation : Option String) :
    List SlackMessage → Bool → Except JsError Bool
  | [], acc => .ok acc
  | m :: rest, acc =>
    if !acc && truthy m.subtype then
      match m.attachments with
      | none => .error (.typeError "Cannot read properties of undefined (reading 0)")
      | some [] => .error (.typeError "Cannot read properties of undefined (reading text)")
      | some (a :: _) => isAlreadyPostedAux translation rest (a.text == translation)
    else
      isAlreadyPostedAux translation rest acc

/-- Duplicate guard `isAlreadyPosted(messages, translation)`. -/
def isAlreadyPosted (messages : List SlackMessage) (translation : Option String) :
    Except JsError Bool :=
  isAlreadyPostedAux translation messages false

/-- Thread anchor of `postMessage`:
`(message.thread_ts) ? message.thread_ts : message.ts`. -/
def threadAnchor (message : SlackMessage) : String :=
  match message.thread_ts with
  | some t => if t.isEmpty then message.ts else t
  | none => message.ts

/-- Attachment built by `postMessage` when `message.text` is truthy. -/
def translatedAttachment (emoji lang : String) (translation : Option String)
    (origText : Option String) : Attachment :=
  { pretext := some ("_The message is translated in_ :" ++ emoji ++ ": _(" ++ lang ++ ")_")
    text := translation
    footer := origText
    mrkdwn_in := ["text", "pretext"] }

/-- Attachment built by `postMessage` when `message.text` is falsy. -/
def unsupportedAttachment : Attachment :=
  { pretext := some "_Sorry, the language is not supported!_ :persevere:"
    text := none
    footer := none
    mrkdwn_in := ["text", "pretext"] }

/-- Arguments assembled by `postMessage` for the `chat.postMessage` call. -/
def postMessageArgs (message : SlackMessage) (translation : Option String)
    (lang channel emoji : String) : PostArgs :=
  { channel := channel
    attachments :=
      if truthy message.text then
        [translatedAttachment emoji lang translation message.text]
      else
        [unsupportedAttachment]
    as_user := false
    username := "Reacjilator Bot"
    thread_ts := threadAnchor message }

/-- `postMessage(context, message, translation, lang, channel, emoji)`:
builds the attachment array, posts it with `axios.post` (whose rejection is
rethrown to the caller), anchored at the thread timestamp. -/
def postMessage (env : Env) (message : SlackMessage) (translation : Option String)
    (lang channel emoji : String) : Except JsError Unit × List Action :=
  let args := postMessageArgs message translation lang channel emoji
  match env.post with
  | .error e => (.error e, [Action.postCall args])
  | .ok _ => (.ok (), [Action.postCall args])

/-- `postTranslatedMessage(context, messages, lang, channel, emoji)`:
`let message = messages[0]` throws when `messages` is `undefined` (outside
the try block, hence uncaught here); inside the try block the translate
request is built and sent, `response.translations[0].translatedText` is
extracted, the duplicate guard runs, and `postMessage` is awaited; any
exception of the try block is caught and logged
(`catch(err) { context.log(err) }`). -/
def postTranslatedMessage (env : Env) (messages : Option (List SlackMessage))
    (lang channel emoji : String) : Except JsError Unit × List Action :=
  match messages with
  | none => (.error (.typeError "Cannot read properties of undefined (reading 0)"), [])
  | some msgs =>
    match msgs.head? with
    | none =>
      (.ok (), [Action.logErr (.typeError "Cannot read properties of undefined (reading text)")])
    | some message =>
      let callAct := Action.translateCall message.text lang
      match env.translate with
      | .error e => (.ok (), [callAct, Action.logErr e])
      | .ok response =>
        match response.translations.head? with
        | none =>
          (.ok (), [callAct,
            Action.logErr (.typeError "Cannot read properties of undefined (reading translatedText)")])
        | some tr =>
          match isAlreadyPosted msgs tr.translatedText with
          | .error e => (.ok (), [callAct, Action.logErr e])
          | .ok true => (.ok (), [callAct])
          | .ok false =>
            match postMessage env message tr.translatedText lang channel emoji with
            | (.error e, tr2) => (.ok (), callAct :: tr2 ++ [Action.logErr e])
            | (.ok _, tr2) => (.ok (), callAct :: tr2)

/-- `getMessage(context, channel, ts)`: the `axios.post` to
`conversations.replies` is awaited outside the try block, so its rejection
propagates to the caller; on fulfilment `result.data.messages` is returned
(the surrounding try block cannot throw there, `messages` may simply be
`undefined`). -/
def getMessage (env : Env) (channel ts : String) :
    Except JsError (Option (List SlackMessage)) × List Action :=
  match env.fetch with
  | .error e => (.error e, [Action.fetchCall channel ts])
  | .ok data => (.ok data, [Action.fetchCall channel ts])

/-- The `item` field of the nested Slack event. -/
structure Item where
  type : String
  channel : String
  ts : String
deriving DecidableEq, Repr

/-- The nested event object destructured by `events`. -/
structure EventObj where
  type : String
  user : String
  reaction : String
  item : Item
deriving DecidableEq, Repr

/-- `events(context, req)`: validate the event type and item type, resolve
the language, sleep `Math.random() * 5000` milliseconds, fetch the thread
and hand over to `postTranslatedMessage`.  The function body contains no
try block, so exceptions of `getMessage` and `postTranslatedMessage`
propagate to the module handler. -/
def events (env : Env) (ev : EventObj) : Except JsError Unit × List Action :=
  if ev.type = "reaction_added" then
    if ev.item.type ≠ "message" then (.ok (), [])
    else
      match resolveLang env.langcode ev.reaction with
      | .error e => (.error e, [])
      | .ok none => (.ok (), [])
      | .ok (some lang) =>
        let sleepAct := Action.sleep (env.random * 5000)
        match getMessage env ev.item.channel ev.item.ts with
        | (.error e, tr1) => (.error e, sleepAct :: tr1)
        | (.ok messages, tr1) =>
          match postTranslatedMessage env messages lang ev.item.channel ev.reaction with
          | (r, tr2) => (r, sleepAct :: (tr1 ++ tr2))
  else (.ok (), [])

/-- Parsed request body: the top-level `type` discriminator, the
`url_verification` challenge, and the nested `event` object. -/
structure ReqBody where
  type : Option String
  challenge : Option String
  event : Option EventObj
deriving DecidableEq, Repr

/-- Inbound request.  `verified` is modelled from the spec: the
`./verifySignature` module is not part of the analysed source and the spec
consumes it "as a boolean is-this-request-authentic capability"
(`signature.isVerified(req)`). -/
structure Req where
  body : ReqBody
  verified : Bool
deriving DecidableEq, Repr

/-- Response body set on `context.res`. -/
inductive ResBody where
  | challengeObj (challenge : Option String)
  | text (s : String)
  | undef
deriving DecidableEq, Repr

/-- Response set on `context.res`; `status := none` means no explicit status
(the platform default 200). -/
structure HttpRes where
  status : Option Nat
  body : ResBody
deriving DecidableEq, Repr

/-- `module.exports`: the switch on `req.body.type`.  An exception escaping
`await events(context, req)` leaves `context.res` unset and rejects the
handler's promise (modelled as `.error`, i.e. a failed invocation). -/
def handler (env : Env) (req : Req) : Except JsError HttpRes × List Action :=
  match req.body.type with
  | some "url_verification" =>
    (.ok { status := none, body := .challengeObj req.body.challenge }, [])
  | some "event_callback" =>
    if !req.verified then
      (.ok { status := some 404, body := .text "bad request" }, [])
    else
      match req.body.event with
      | none => (.error (.typeError "Cannot destructure property of undefined"), [])
      | some ev =>
        match events env ev with
        | (.error e, tr) => (.error e, tr)
        | (.ok _, tr) => (.ok { status := none, body := .undef }, tr)
  | _ => (.ok { status := some 404, body := .text "bad request" }, [])

/-- Number of translate requests in a trace. -/
def countTranslate (tr : List Action) : Nat :=
  tr.countP fun a => match a with | .translateCall _ _ => true | _ => false

/-- Number of post actions in a trace. -/
def countPost (tr : List Action) : Nat :=
  tr.countP fun a => match a with | .postCall _ => true | _ => false

/-- Whether a message counts as a prior translation post in the sense of the
spec's Duplicate Guard: reply-subtype marker and first attachment body equal
to the candidate text. -/
def dupMatch (translation : Option String) (m : SlackMessage) : Bool :=
  truthy m.subtype &&
    match m.attachments with
    | some (a :: _) => a.text == translation
    | _ => false

/-- Whether the duplicate guard can dereference `m.attachments[0].text`
without a `TypeError` (vacuously when the subtype guard skips `m`). -/
def derefSafe (m : SlackMessage) : Bool :=
  !truthy m.subtype ||
    match m.attachments with
    | some (_ :: _) => true
    | _ => false

/-! Theorems -/

theorem isWordChar_f : isWordChar 'f' = true := by decide

theorem isWordChar_l : isWordChar 'l' = true := by decide

theorem isWordChar_a : isWordChar 'a' = true := by decide

theorem isWordChar_g : isWordChar 'g' = true := by decide

theorem isWordChar_dash : isWordChar '-' = false := by decide

theorem flagDashHead_decomp (cs : List Char) (h : flagDashHead cs = true) :
    cs = 'f' :: 'l' :: 'a' :: 'g' :: '-' :: cs.drop 5 := by
  have h' : cs.take 5 = ['f', 'l', 'a', 'g', '-'] := by
    simpa [flagDashHead] using h
  conv_lhs => rw [← List.take_append_drop 5 cs]
  rw [h']
  rfl

theorem scanToken_flag_step (w : Char) (r : List Char) (hw : isWordChar w = true) :
    scanToken false ('f' :: 'l' :: 'a' :: 'g' :: '-' :: w :: r) =
      scanToken false (w :: r) := by
  have hb : boundaryAfterFlag ('f' :: 'l' :: 'a' :: 'g' :: '-' :: w :: r) = true := by
    simpa [boundaryAfterFlag] using hw
  simp only [scanToken, hb, isWordChar_f, isWordChar_l, isWordChar_a, isWordChar_g,
    isWordChar_dash, show flagDashHead ('f' :: 'l' :: 'a' :: 'g' :: '-' :: w :: r) = true from rfl,
    Bool.not_false, Bool.not_true, Bool.true_and, Bool.false_and, Bool.and_true,
    Bool.and_false, ite_true, ite_false]
  simp

theorem scanToken_ne_none :
    ∀ (n : Nat) (cs : List Char), cs.length ≤ n → hasFlagDash cs = true →
      scanToken false cs ≠ none := by
  intro n
  induction n with
  | zero =>
    intro cs hl h
    have hnil : cs = [] := List.eq_nil_of_length_eq_zero (Nat.le_zero.mp hl)
    subst hnil
    simp [hasFlagDash] at h
  | succ n ih =>
    intro cs hl h
    cases cs with
    | nil => simp [hasFlagDash] at h
    | cons c rest =>
      by_cases hp : flagDashHead (c :: rest) = true
      · have hdec := flagDashHead_decomp _ hp
        have hlen := congrArg List.length hdec
        rw [hdec]
        cases hr : (c :: rest).drop 5 with
        | nil => decide
        | cons w r6 =>
          rw [hr] at hlen
          by_cases hw : isWordChar w = true
          · rw [scanToken_flag_step w r6 hw]
            by_cases hp2 : flagDashHead (w :: r6) = true
            · refine ih (w :: r6) ?_ ?_
              · simp only [List.length_cons] at hlen hl ⊢
                omega
              · simp [hasFlagDash, hp2]
            · simp [scanToken, hw, hp2]
          · simp [scanToken, hw, isWordChar_f, boundaryAfterFlag]
      · have hrest : hasFlagDash rest = true := by
          simpa [hasFlagDash, hp] using h
        by_cases hw : isWordChar c = true
        · simp [scanToken, hw, hp]
        · have hstep : scanToken false (c :: rest) = scanToken false rest := by
            simp [scanToken, hw]
          rw [hstep]
          refine ih rest ?_ hrest
          simp only [List.length_cons] at hl
          omega

theorem extractToken_isSome (s : String) (h : containsFlagDash s = true) :
    ∃ c, extractToken s = some c := by
  have hne := scanToken_ne_none s.data.length s.data le_rfl h
  unfold extractToken
  cases hs : scanToken false s.data with
  | none => exact absurd hs hne
  | some t => exact ⟨t.asString, by simp⟩

/-- Absence of an emoji name from the language mapping, both as a direct key
and via flag-token extraction (the antecedent of claim C4). -/
def absentFromMapping (lc : List (String × String)) (reaction : String) : Bool :=
  (truthyLookup lc reaction == none) &&
    (match extractToken reaction with
     | none => true
     | some c => truthyLookup lc c == none)

/-- C4: for every emoji name absent from the language mapping, both as a
direct key and via flag-token extraction, language resolution yields none
and `events` performs no action at all: no sleep, no thread fetch, no
translation request, no post. -/
theorem unresolved_emoji_no_calls_c4 (env : Env) (ev : EventObj)
    (h : absentFromMapping env.langcode ev.reaction = true) :
    resolveLang env.langcode ev.reaction = .ok none ∧ events env ev = (.ok (), []) := by
  simp only [absentFromMapping, Bool.and_eq_true, beq_iff_eq] at h
  have hres : resolveLang env.langcode ev.reaction = .ok none := by
    unfold resolveLang
    by_cases hf : containsFlagDash ev.reaction = true
    · obtain ⟨c, hc⟩ := extractToken_isSome _ hf
      simp only [hc] at h
      have h2 : truthyLookup env.langcode c = none := by simpa using h.2
      simp [hf, hc, h2]
    · rw [if_neg hf]
      by_cases hk : ((env.langcode.map Prod.fst).contains ev.reaction) = true
      · rw [if_pos hk, h.1]
      · rw [if_neg hk]
  refine ⟨hres, ?_⟩
  unfold events
  by_cases h1 : ev.type = "reaction_added"
  · by_cases h2 : ev.item.type = "message"
    · simp [h1, h2, hres]
    · simp [h1, h2]
  · simp [h1]

/-- Language mapping used by the concrete witnesses. -/
def lcW : List (String × String) := [("jp", "ja"), ("fr", "fr")]

/-- Environment used by witnesses of happy-path-free claims. -/
def envW : Env :=
  { langcode := lcW, random := 0, fetch := .ok (some []),
    translate := .ok { translations := [] }, post := .ok () }

/-- Reaction event with an emoji absent from the mapping. -/
def evThumbsup : EventObj :=
  { type := "reaction_added", user := "U1", reaction := "thumbsup",
    item := { type := "message", channel := "C1", ts := "100.1" } }

/-- C4 witness: the emoji `thumbsup` is absent from the witness mapping and
the dispatcher does nothing for it. -/
theorem unresolved_emoji_no_calls_c4_witness :
    absentFromMapping envW.langcode evThumbsup.reaction = true ∧
    (resolveLang envW.langcode evThumbsup.reaction = .ok none ∧
      events envW evThumbsup = (.ok (), [])) :=
  ⟨by decide, unresolved_emoji_no_calls_c4 envW evThumbsup (by decide)⟩

/-- C9: the inbound switch echoes the challenge for `url_verification`,
answers status 404 with body `bad request` for an `event_callback` that
fails signature verification, and answers status 404 with body
`bad request` for any other top-level type. -/
theorem inbound_routing_c9 (env : Env) (req : Req) :
    (req.body.type = some "url_verification" →
      handler env req =
        (.ok { status := none, body := .challengeObj req.body.challenge }, [])) ∧
    (req.body.type = some "event_callback" → req.verified = false →
      handler env req = (.ok { status := some 404, body := .text "bad request" }, [])) ∧
    (req.body.type ≠ some "url_verification" → req.body.type ≠ some "event_callback" →
      handler env req = (.ok { status := some 404, body := .text "bad request" }, [])) := by
  refine ⟨fun h1 => ?_, fun h2 hv => ?_, fun hn1 hn2 => ?_⟩
  · unfold handler
    rw [h1]
    rfl
  · unfold handler
    rw [h2, hv]
    rfl
  · unfold handler
    match hty : req.body.type with
    | none => rfl
    | some t =>
      rw [hty] at hn1 hn2
      have ht1 : t ≠ "url_verification" := fun h => hn1 (by rw [h])
      have ht2 : t ≠ "event_callback" := fun h => hn2 (by rw [h])
      simp [ht1, ht2]

/-- Request of type `url_verification` for the C9 witness. -/
def reqUrlVerif : Req :=
  { body := { type := some "url_verification", challenge := some "ch42", event := none },
    verified := false }

/-- Unverified `event_callback` request for the C9 witness. -/
def reqBadSig : Req :=
  { body := { type := some "event_callback", challenge := none,
              event := some evThumbsup },
    verified := false }

/-- Request of an unknown top-level type for the C9 witness. -/
def reqOther : Req :=
  { body := { type := some "app_rate_limited", challenge := none, event := none },
    verified := true }

/-- C9 witness: the three routing branches evaluated on concrete requests. -/
theorem inbound_routing_c9_witness :
    handler envW reqUrlVerif =
      (.ok { status := none, body := .challengeObj (some "ch42") }, []) ∧
    handler envW reqBadSig =
      (.ok { status := some 404, body := .text "bad request" }, []) ∧
    handler envW reqOther =
      (.ok { status := some 404, body := .text "bad request" }, []) :=
  ⟨(inbound_routing_c9 envW reqUrlVerif).1 rfl,
   (inbound_routing_c9 envW reqBadSig).2.1 rfl rfl,
   (inbound_routing_c9 envW reqOther).2.2 (by decide) (by decide)⟩

/-- C6: the jittered sleep lasts `Math.random() * 5000` milliseconds, hence
lies in `[0, 5000)` when the draw lies in `[0, 1)`; events rejected as
non-reaction, non-message or unresolved-emoji produce an empty trace (no
delay); and for accepted events the sleep is the first action of the trace,
strictly before the fetch and every later network call. -/
theorem jitter_sleep_c6 (env : Env) (ev : EventObj) :
    (ev.type ≠ "reaction_added" → events env ev = (.ok (), [])) ∧
    (ev.item.type ≠ "message" → events env ev = (.ok (), [])) ∧
    (resolveLang env.langcode ev.reaction = .ok none → events env ev = (.ok (), [])) ∧
    (∀ lang, ev.type = "reaction_added" → ev.item.type = "message" →
      resolveLang env.langcode ev.reaction = .ok (some lang) →
      ∃ rest, (events env ev).2 =
        Action.sleep (env.random * 5000) ::
          Action.fetchCall ev.item.channel ev.item.ts :: rest) ∧
    (0 ≤ env.random → env.random < 1 →
      0 ≤ env.random * 5000 ∧ env.random * 5000 < 5000) := by
  refine ⟨fun h1 => ?_, fun h2 => ?_, fun h3 => ?_, fun lang h1 h2 h3 => ?_, fun ha hb => ?_⟩
  · unfold events
    rw [if_neg h1]
  · unfold events
    by_cases h1 : ev.type = "reaction_added"
    · rw [if_pos h1, if_pos h2]
    · rw [if_neg h1]
  · unfold events
    by_cases h1 : ev.type = "reaction_added"
    · by_cases h2 : ev.item.type = "message"
      · rw [if_pos h1, if_neg (by simp [h2])]
        simp only [h3]
      · rw [if_pos h1, if_pos h2]
    · rw [if_neg h1]
  · unfold events getMessage
    rw [if_pos h1, if_neg (by simp [h2])]
    simp only [h3]
    cases hf : env.fetch with
    | error e => exact ⟨[], by simp [hf]⟩
    | ok messages =>
      refine ⟨(postTranslatedMessage env messages lang ev.item.channel ev.reaction).2, ?_⟩
      simp [hf]
  · constructor
    · positivity
    · nlinarith

/-- Environment for the C6 witness, with a mid-range random draw. -/
def envC6 : Env :=
  { langcode := lcW, random := 1 / 2, fetch := .ok (some []),
    translate := .ok { translations := [] }, post := .ok () }

/-- Reaction event carrying the direct-code emoji `jp`. -/
def evJp : EventObj :=
  { type := "reaction_added", user := "U1", reaction := "jp",
    item := { type := "message", channel := "C1", ts := "100.1" } }

/-- C6 witness: on the concrete `jp` event the trace starts with the sleep
and then the fetch, and the concrete jitter value lies in `[0, 5000)`. -/
theorem jitter_sleep_c6_witness :
    (∃ rest, (events envC6 evJp).2 =
      Action.sleep (envC6.random * 5000) ::
        Action.fetchCall evJp.item.channel evJp.item.ts :: rest) ∧
    (0 ≤ envC6.random * 5000 ∧ envC6.random * 5000 < 5000) :=
  ⟨(jitter_sleep_c6 envC6 evJp).2.2.2.1 "ja" rfl rfl (by decide),
   (jitter_sleep_c6 envC6 evJp).2.2.2.2 (by norm_num [envC6]) (by norm_num [envC6])⟩

/-- Translate/post counts of `postTranslatedMessage` in the passing case:
translation succeeds and the duplicate guard answers false, so exactly one
translation request and exactly one post call are emitted. -/
theorem postTranslatedMessage_counts (env : Env) (m : SlackMessage)
    (rest : List SlackMessage) (t : Option String) (ts' : List Translation)
    (lang channel emoji : String)
    (h5 : env.translate = .ok { translations := { translatedText := t } :: ts' })
    (h6 : isAlreadyPosted (m :: rest) t = .ok false) :
    countTranslate (postTranslatedMessage env (some (m :: rest)) lang channel emoji).2 = 1 ∧
    countPost (postTranslatedMessage env (some (m :: rest)) lang channel emoji).2 = 1 := by
  unfold postTranslatedMessage
  simp only [List.head?, h5, h6]
  cases hp : env.post <;>
    simp [postMessage, hp, countTranslate, countPost]

/-- C7: for every event passing event-type validation, language resolution
and the duplicate check (with a successful fetch and translation), exactly
one translation request is sent and at most one post action is performed. -/
theorem single_translate_single_post_c7 (env : Env) (ev : EventObj) (lang : String)
    (m : SlackMessage) (rest : List SlackMessage) (t : Option String)
    (ts' : List Translation)
    (h1 : ev.type = "reaction_added") (h2 : ev.item.type = "message")
    (h3 : resolveLang env.langcode ev.reaction = .ok (some lang))
    (h4 : env.fetch = .ok (some (m :: rest)))
    (h5 : env.translate = .ok { translations := { translatedText := t } :: ts' })
    (h6 : isAlreadyPosted (m :: rest) t = .ok false) :
    countTranslate (events env ev).2 = 1 ∧ countPost (events env ev).2 ≤ 1 := by
  have hc := postTranslatedMessage_counts env m rest t ts' lang ev.item.channel
    ev.reaction h5 h6
  unfold events getMessage
  rw [if_pos h1, if_neg (by simp [h2])]
  simp only [h3, h4]
  simp [countTranslate, countPost] at hc ⊢
  omega

/-- Message used by the happy-path witnesses. -/
def msgHello : SlackMessage :=
  { text := some "Hello", ts := "100.1", thread_ts := none, subtype := none,
    attachments := none }

/-- Environment for the C7 witness: fetch and translation succeed and the
thread holds only the original message. -/
def envC7 : Env :=
  { langcode := lcW, random := 0, fetch := .ok (some [msgHello]),
    translate := .ok { translations := [{ translatedText := some "Bonjour" }] },
    post := .ok () }

/-- C7 witness: the concrete `jp` event on `msgHello` sends one translation
request and performs at most one post. -/
theorem single_translate_single_post_c7_witness :
    countTranslate (events envC7 evJp).2 = 1 ∧ countPost (events envC7 evJp).2 ≤ 1 :=
  single_translate_single_post_c7 envC7 evJp "ja" msgHello [] (some "Bonjour") []
    rfl rfl (by decide) rfl rfl (by decide)

/-- C8: the thread anchor is `message.thread_ts` when that field is present
(non-empty, i.e. the message is itself a thread reply) and `message.ts`
otherwise; and when the original message has text, the posted attachment
carries the translated text as body, the original text as footer, and a
pretext naming the triggering emoji and the target language. -/
theorem reply_anchor_attachment_c8 (env : Env) (msg : SlackMessage)
    (translation : Option String) (lang channel emoji : String) :
    (∀ t, msg.thread_ts = some t → t.isEmpty = false → threadAnchor msg = t) ∧
    (msg.thread_ts = none → threadAnchor msg = msg.ts) ∧
    (truthy msg.text = true →
      (postMessage env msg translation lang channel emoji).2 =
        [Action.postCall
          { channel := channel
            attachments :=
              [{ pretext := some ("_The message is translated in_ :" ++ emoji ++
                   ": _(" ++ lang ++ ")_")
                 text := translation
                 footer := msg.text
                 mrkdwn_in := ["text", "pretext"] }]
            as_user := false
            username := "Reacjilator Bot"
            thread_ts := threadAnchor msg }]) := by
  refine ⟨fun t ht he => ?_, fun hn => ?_, fun htext => ?_⟩
  · unfold threadAnchor
    rw [ht]
    simp [he]
  · unfold threadAnchor
    rw [hn]
  · cases hp : env.post <;>
      simp [postMessage, postMessageArgs, translatedAttachment, hp, htext]

/-- Thread-reply message used by the C8 witness. -/
def msgThread : SlackMessage :=
  { text := some "Hi", ts := "100.2", thread_ts := some "99.9", subtype := none,
    attachments := none }

/-- C8 witness: concrete anchors for a thread reply and a root message, and
the concrete attachment posted for a message with text. -/
theorem reply_anchor_attachment_c8_witness :
    threadAnchor msgThread = "99.9" ∧
    threadAnchor msgHello = msgHello.ts ∧
    (postMessage envW msgThread (some "T") "ja" "C1" "jp").2 =
      [Action.postCall
        { channel := "C1"
          attachments :=
            [{ pretext := some ("_The message is translated in_ :" ++ "jp" ++
                 ": _(" ++ "ja" ++ ")_")
               text := some "T"
               footer := msgThread.text
               mrkdwn_in := ["text", "pretext"] }]
          as_user := false
          username := "Reacjilator Bot"
          thread_ts := threadAnchor msgThread }] :=
  ⟨(reply_anchor_attachment_c8 envW msgThread (some "T") "ja" "C1" "jp").1 "99.9" rfl rfl,
   (reply_anchor_attachment_c8 envW msgHello (some "T") "ja" "C1" "jp").2.1 rfl,
   (reply_anchor_attachment_c8 envW msgThread (some "T") "ja" "C1" "jp").2.2 rfl⟩

/-- Environment in which the Slack thread fetch rejects with a network
error, on an otherwise fully valid reaction event. -/
def envFetchFail : Env :=
  { langcode := lcW, random := 0,
    fetch := .error (.jsError "getaddrinfo ENOTFOUND slack.com"),
    translate := .ok { translations := [] }, post := .ok () }

/-- Authenticated `event_callback` request carrying the `jp` reaction. -/
def reqJp : Req :=
  { body := { type := some "event_callback", challenge := none, event := some evJp },
    verified := true }

/-- C1: evaluation at the failing input.  When the thread-fetch call
rejects, the exception is not caught anywhere (the try block of
`getMessage` only wraps the return statement and `events` has no try
block): the handler's result is the error itself, not a success-shaped
response, and the trace shows the error was never logged by a catch block
(it contains only the sleep and the fetch). -/
theorem fetch_rejection_uncaught_c1 :
    (handler envFetchFail reqJp).1 = .error (.jsError "getaddrinfo ENOTFOUND slack.com") ∧
    (handler envFetchFail reqJp).2 =
      [Action.sleep (envFetchFail.random * 5000),
       Action.fetchCall evJp.item.channel evJp.item.ts] :=
  ⟨rfl, rfl⟩

/-- Environment in which the fetch fulfils but the response carries no
`messages` field, so `getMessage` returns `undefined`. -/
def envNoMessages : Env :=
  { langcode := lcW, random := 0, fetch := .ok none,
    translate := .ok { translations := [] }, post := .ok () }

/-- C5 counterexample: when the thread fetch yields an absent (`undefined`)
message sequence, the pipeline does abort with no post, but the failure is
not logged: `let message = messages[0]` throws outside the try block and
the TypeError surfaces out of `events` (the trace holds only the sleep and
the fetch, no catch-block log and no post). -/
theorem absent_messages_uncaught_c5_counterexample :
    (events envNoMessages evJp).1 =
      .error (.typeError "Cannot read properties of undefined (reading 0)") ∧
    (events envNoMessages evJp).2 =
      [Action.sleep (envNoMessages.random * 5000),
       Action.fetchCall evJp.item.channel evJp.item.ts] :=
  ⟨rfl, rfl⟩

/-- C5 as amended: an empty message sequence aborts the pipeline with no
post and the resulting TypeError is caught and logged inside
`postTranslatedMessage`; an absent (`undefined`) sequence also aborts with
no post, but its TypeError propagates uncaught (and unlogged) out of the
translate-and-post step. -/
theorem fetch_empty_or_absent_c5 (env : Env) (lang channel emoji : String) :
    postTranslatedMessage env (some []) lang channel emoji =
      (.ok (), [Action.logErr
        (.typeError "Cannot read properties of undefined (reading text)")]) ∧
    postTranslatedMessage env none lang channel emoji =
      (.error (.typeError "Cannot read properties of undefined (reading 0)"), []) ∧
    countPost (postTranslatedMessage env (some []) lang channel emoji).2 = 0 ∧
    countPost (postTranslatedMessage env none lang channel emoji).2 = 0 :=
  ⟨rfl, rfl, rfl, rfl⟩

/-- Reacted-to message with empty text. -/
def msgNoText : SlackMessage :=
  { text := some "", ts := "100.1", thread_ts := none, subtype := none,
    attachments := none }

/-- Environment for the empty-text scenario: the translation provider
accepts the empty content and returns an empty translation. -/
def envC2 : Env :=
  { langcode := lcW, random := 0, fetch := .ok (some [msgNoText]),
    translate := .ok { translations := [{ translatedText := some "" }] },
    post := .ok () }

/-- C2 counterexample: for a reacted-to message whose text is empty the
Translator Client IS invoked — `postTranslatedMessage` sends the translate
request unconditionally before the text check, so the trace contains a
translation request, contradicting the claim that the client is never
invoked. -/
theorem empty_text_translator_invoked_c2_counterexample :
    truthy msgNoText.text = false ∧
    countTranslate (postTranslatedMessage envC2 (some [msgNoText]) "ja" "C1" "jp").2 = 1 :=
  ⟨rfl, rfl⟩

/-- C2 as amended: for a reacted-to message with empty text the translation
request is still sent (it is the first action of the translate-and-post
step), and any post performed carries exactly the fixed "not supported"
attachment with no body text and no footer. -/
theorem empty_text_translate_then_unsupported_c2 (env : Env) (msg : SlackMessage)
    (rest : List SlackMessage) (lang channel emoji : String)
    (h : truthy msg.text = false) :
    (∃ tl, (postTranslatedMessage env (some (msg :: rest)) lang channel emoji).2 =
        Action.translateCall msg.text lang :: tl) ∧
    (∀ args, Action.postCall args ∈
        (postTranslatedMessage env (some (msg :: rest)) lang channel emoji).2 →
      args.attachments = [unsupportedAttachment]) := by
  cases ht : env.translate with
  | error e =>
    refine ⟨⟨[Action.logErr e], by simp [postTranslatedMessage, ht]⟩, fun args hmem => ?_⟩
    simp [postTranslatedMessage, ht] at hmem
  | ok response =>
    cases hh : response.translations with
    | nil =>
      refine ⟨⟨[Action.logErr
          (.typeError "Cannot read properties of undefined (reading translatedText)")],
        by simp [postTranslatedMessage, ht, hh]⟩, fun args hmem => ?_⟩
      simp [postTranslatedMessage, ht, hh] at hmem
    | cons tr0 trs =>
      cases hd : isAlreadyPosted (msg :: rest) tr0.translatedText with
      | error e =>
        refine ⟨⟨[Action.logErr e], by simp [postTranslatedMessage, ht, hh, hd]⟩,
          fun args hmem => ?_⟩
        simp [postTranslatedMessage, ht, hh, hd] at hmem
      | ok b =>
        cases b with
        | true =>
          refine ⟨⟨[], by simp [postTranslatedMessage, ht, hh, hd]⟩, fun args hmem => ?_⟩
          simp [postTranslatedMessage, ht, hh, hd] at hmem
        | false =>
          cases hp : env.post with
          | error e =>
            refine ⟨⟨[Action.postCall (postMessageArgs msg tr0.translatedText lang channel emoji),
              Action.logErr e], by simp [postTranslatedMessage, postMessage, ht, hh, hd, hp]⟩,
              fun args hmem => ?_⟩
            simp [postTranslatedMessage, postMessage, ht, hh, hd, hp] at hmem
            rw [hmem, postMessageArgs]
            simp [h]
          | ok u =>
            refine ⟨⟨[Action.postCall (postMessageArgs msg tr0.translatedText lang channel emoji)],
              by simp [postTranslatedMessage, postMessage, ht, hh, hd, hp]⟩,
              fun args hmem => ?_⟩
            simp [postTranslatedMessage, postMessage, ht, hh, hd, hp] at hmem
            rw [hmem, postMessageArgs]
            simp [h]

/-- C2 witness: on the concrete empty-text message the attachment actually
posted is the fixed "not supported" one. -/
theorem empty_text_translate_then_unsupported_c2_witness :
    (postMessageArgs msgNoText (some "") "ja" "C1" "jp").attachments =
      [unsupportedAttachment] :=
  (empty_text_translate_then_unsupported_c2 envC2 msgNoText [] "ja" "C1" "jp" rfl).2
    (postMessageArgs msgNoText (some "") "ja" "C1" "jp") (by decide)

theorem isAlreadyPostedAux_true (t : Option String) (l : List SlackMessage) :
    isAlreadyPostedAux t l true = .ok true := by
  induction l with
  | nil => rfl
  | cons m rest ih => simp [isAlreadyPostedAux, ih]

theorem isAlreadyPostedAux_ne_ok_false (t : Option String) :
    ∀ l : List SlackMessage, l.any (dupMatch t) = true →
      isAlreadyPostedAux t l false ≠ .ok false := by
  intro l
  induction l with
  | nil => intro h; simp at h
  | cons m rest ih =>
    intro h
    rw [List.any_cons] at h
    by_cases hs : truthy m.subtype = true
    · cases hatt : m.attachments with
      | none => simp [isAlreadyPostedAux, hs, hatt]
      | some atts =>
        cases atts with
        | nil => simp [isAlreadyPostedAux, hs, hatt]
        | cons a arest =>
          cases he : a.text == t with
          | true => simp [isAlreadyPostedAux, hs, hatt, he, isAlreadyPostedAux_true]
          | false =>
            have hd : dupMatch t m = false := by simp [dupMatch, hatt, he]
            rw [hd] at h
            simp only [Bool.false_or] at h
            simp only [isAlreadyPostedAux, hs, hatt, he]
            simpa using ih h
    · have hsf : truthy m.subtype = false := by simpa using hs
      have hd : dupMatch t m = false := by simp [dupMatch, hsf]
      rw [hd] at h
      simp only [Bool.false_or] at h
      simp only [isAlreadyPostedAux, hsf]
      simpa using ih h

theorem isAlreadyPostedAux_safe (t : Option String) :
    ∀ l : List SlackMessage, l.all derefSafe = true → l.any (dupMatch t) = true →
      isAlreadyPostedAux t l false = .ok true := by
  intro l
  induction l with
  | nil => intro _ h; simp at h
  | cons m rest ih =>
    intro hall h
    rw [List.all_cons] at hall
    rw [List.any_cons] at h
    rw [Bool.and_eq_true] at hall
    have hm := hall.1
    have hrest := hall.2
    cases hs : truthy m.subtype with
    | false =>
      have hd : dupMatch t m = false := by simp [dupMatch, hs]
      rw [hd] at h
      simp only [Bool.false_or] at h
      simpa [isAlreadyPostedAux, hs] using ih hrest h
    | true =>
      have hex : ∃ a arest, m.attachments = some (a :: arest) := by
        unfold derefSafe at hm
        rw [hs] at hm
        cases hatt : m.attachments with
        | none => rw [hatt] at hm; simp at hm
        | some atts =>
          cases atts with
          | nil => rw [hatt] at hm; simp at hm
          | cons a arest => exact ⟨a, arest, rfl⟩
      obtain ⟨a, arest, hatt⟩ := hex
      cases he : a.text == t with
      | true => simp [isAlreadyPostedAux, hs, hatt, he, isAlreadyPostedAux_true]
      | false =>
        have hd : dupMatch t m = false := by simp [dupMatch, hatt, he]
        rw [hd] at h
        simp only [Bool.false_or] at h
        simpa [isAlreadyPostedAux, hs, hatt, he] using ih hrest h

theorem isAlreadyPostedAux_ok_true (t : Option String) :
    ∀ (l : List SlackMessage) (acc : Bool), isAlreadyPostedAux t l acc = .ok true →
      acc = true ∨ l.any (dupMatch t) = true := by
  intro l
  induction l with
  | nil =>
    intro acc h
    left
    simpa [isAlreadyPostedAux] using h
  | cons m rest ih =>
    intro acc h
    rw [List.any_cons]
    by_cases hc : (!acc && truthy m.subtype) = true
    · have hs : truthy m.subtype = true := by
        have hc' := hc
        rw [Bool.and_eq_true] at hc'
        exact hc'.2
      simp only [isAlreadyPostedAux] at h
      rw [if_pos hc] at h
      cases hatt : m.attachments with
      | none => rw [hatt] at h; simp at h
      | some atts =>
        cases atts with
        | nil => rw [hatt] at h; simp at h
        | cons a arest =>
          rw [hatt] at h
          rcases ih (a.text == t) h with h' | h'
          · right
            have hd : dupMatch t m = true := by simp [dupMatch, hs, hatt, h']
            rw [hd]
            simp
          · right
            rw [h']
            simp
    · simp only [isAlreadyPostedAux] at h
      rw [if_neg hc] at h
      rcases ih acc h with h' | h'
      · exact Or.inl h'
      · right
        rw [h']
        simp

/-- Attachment whose body text is the candidate translation `T`. -/
def attT : Attachment :=
  { pretext := none, text := some "T", footer := none, mrkdwn_in := [] }

/-- Subtype-marked thread message with no attachments array. -/
def msgBad : SlackMessage :=
  { text := none, ts := "1", thread_ts := none, subtype := some "bot_message",
    attachments := none }

/-- Subtype-marked thread message whose first attachment body is `T`. -/
def msgDup : SlackMessage :=
  { text := some "orig", ts := "2", thread_ts := none, subtype := some "bot_message",
    attachments := some [attT] }

/-- C3 counterexample: `msgDup` matches the candidate text `T`, yet the
duplicate check does not return true for every permutation of the other
thread messages — with the unrelated subtype-marked, attachment-less
`msgBad` placed first, the scan raises a TypeError instead. -/
theorem duplicate_guard_permutation_c3_counterexample :
    dupMatch (some "T") msgDup = true ∧
    isAlreadyPosted [msgDup, msgBad] (some "T") = .ok true ∧
    isAlreadyPosted [msgBad, msgDup] (some "T") =
      .error (.typeError "Cannot read properties of undefined (reading 0)") := by
  decide

/-- C3 as amended: when some thread message carries the subtype marker and
first-attachment body equal to the candidate text, the duplicate check
returns true provided every subtype-marked message in the thread can be
dereferenced safely; the Poster is never invoked regardless (in any
arrangement of the thread, the guard answers true or faults, and both stop
the pipeline before posting); and conversely the check answers true only
when such a matching message exists. -/
theorem duplicate_guard_c3 (env : Env) (msgs : List SlackMessage) (t : Option String)
    (ts' : List Translation) (lang channel emoji : String)
    (hdup : msgs.any (dupMatch t) = true)
    (htr : env.translate = .ok { translations := { translatedText := t } :: ts' }) :
    (msgs.all derefSafe = true → isAlreadyPosted msgs t = .ok true) ∧
    (∀ l' : List SlackMessage, l'.any (dupMatch t) = true →
      countPost (postTranslatedMessage env (some l') lang channel emoji).2 = 0) ∧
    (∀ (l : List SlackMessage) (t' : Option String),
      isAlreadyPosted l t' = .ok true → l.any (dupMatch t') = true) := by
  refine ⟨fun hsafe => isAlreadyPostedAux_safe t msgs hsafe hdup,
    fun l' hl' => ?_, fun l t' h => ?_⟩
  · cases l' with
    | nil => simp at hl'
    | cons m rest =>
      cases hd : isAlreadyPosted (m :: rest) t with
      | error e => simp [postTranslatedMessage, htr, hd, countPost]
      | ok b =>
        cases b with
        | false => exact absurd hd (isAlreadyPostedAux_ne_ok_false t _ hl')
        | true => simp [postTranslatedMessage, htr, hd, countPost]
  · rcases isAlreadyPostedAux_ok_true t' l false h with h' | h'
    · exact absurd h' (by simp)
    · exact h'

/-- Environment for the C3 witness: the provider returns exactly the
candidate text `T` already present in the thread. -/
def envC3 : Env :=
  { langcode := lcW, random := 0, fetch := .ok (some [msgDup]),
    translate := .ok { translations := [{ translatedText := some "T" }] },
    post := .ok () }

/-- C3 witness: with the duplicate already in the thread, the guard answers
true and no post action is emitted. -/
theorem duplicate_guard_c3_witness :
    isAlreadyPosted [msgDup] (some "T") = .ok true ∧
    countPost (postTranslatedMessage envC3 (some [msgDup]) "ja" "C1" "jp").2 = 0 := by
  have h := duplicate_guard_c3 envC3 [msgDup] (some "T") [] "ja" "C1" "jp" (by decide) rfl
  exact ⟨h.1 (by decide), h.2.1 [msgDup] (by decide)⟩

theorem isAlreadyPostedAux_skip (t : Option String) :
    ∀ pre : List SlackMessage, pre.all (fun x => !truthy x.subtype) = true →
      ∀ l : List SlackMessage,
        isAlreadyPostedAux t (pre ++ l) false = isAlreadyPostedAux t l false := by
  intro pre
  induction pre with
  | nil => intro _ l; rfl
  | cons m rest ih =>
    intro hall l
    rw [List.all_cons, Bool.and_eq_true] at hall
    have hs : truthy m.subtype = false := by
      simpa using hall.1
    rw [List.cons_append,
      show isAlreadyPostedAux t (m :: (rest ++ l)) false =
        isAlreadyPostedAux t (rest ++ l) false from by simp [isAlreadyPostedAux, hs]]
    exact ih hall.2 l

/-- C10 counterexample: `msgBad` carries a truthy subtype and no
attachments array, yet when the duplicate `msgDup` precedes it in the
thread, the guard never dereferences `msgBad` and no TypeError is raised —
the check simply returns true — contradicting the claim that the deref is
unconditional for every subtype-marked message. -/
theorem subtype_without_attachments_c10_counterexample :
    truthy msgBad.subtype = true ∧ msgBad.attachments = none ∧
    isAlreadyPosted [msgDup, msgBad] (some "T") = .ok true := by
  decide

/-- C10 as amended: a subtype-marked message with no attachments array
raises the TypeError when no earlier message has set the duplicate flag (in
particular when all earlier messages lack the subtype marker); the
TypeError is caught and logged by the try block of the translate-and-post
step, so the event ends with the translation computed (one translate call),
no post, and no error escaping. -/
theorem subtype_without_attachments_c10 (env : Env) (pre : List SlackMessage)
    (m : SlackMessage) (post' : List SlackMessage) (t : Option String)
    (ts' : List Translation) (lang channel emoji : String)
    (hpre : pre.all (fun x => !truthy x.subtype) = true)
    (hm : truthy m.subtype = true)
    (hatt : m.attachments = none)
    (htr : env.translate = .ok { translations := { translatedText := t } :: ts' }) :
    isAlreadyPosted (pre ++ m :: post') t =
      .error (.typeError "Cannot read properties of undefined (reading 0)") ∧
    (postTranslatedMessage env (some (pre ++ m :: post')) lang channel emoji).1 = .ok () ∧
    countTranslate
      (postTranslatedMessage env (some (pre ++ m :: post')) lang channel emoji).2 = 1 ∧
    countPost (postTranslatedMessage env (some (pre ++ m :: post')) lang channel emoji).2 = 0 ∧
    Action.logErr (.typeError "Cannot read properties of undefined (reading 0)") ∈
      (postTranslatedMessage env (some (pre ++ m :: post')) lang channel emoji).2 := by
  have herr : isAlreadyPosted (pre ++ m :: post') t =
      .error (.typeError "Cannot read properties of undefined (reading 0)") := by
    unfold isAlreadyPosted
    rw [isAlreadyPostedAux_skip t pre hpre (m :: post')]
    simp [isAlreadyPostedAux, hm, hatt]
  obtain ⟨m0, l0, hl⟩ : ∃ m0 l0, pre ++ m :: post' = m0 :: l0 := by
    cases pre with
    | nil => exact ⟨m, post', rfl⟩
    | cons p ps => exact ⟨p, ps ++ m :: post', rfl⟩
  rw [hl] at herr ⊢
  refine ⟨herr, ?_, ?_, ?_, ?_⟩ <;>
    simp [postTranslatedMessage, htr, herr, countTranslate, countPost]

/-- Environment for the C10 witness: the thread consists of the single
subtype-marked, attachment-less message. -/
def envC10 : Env :=
  { langcode := lcW, random := 0, fetch := .ok (some [msgBad]),
    translate := .ok { translations := [{ translatedText := some "T" }] },
    post := .ok () }

/-- C10 witness: on the concrete attachment-less subtype message the guard
faults, the fault is swallowed, and no post occurs. -/
theorem subtype_without_attachments_c10_witness :
    isAlreadyPosted [msgBad] (some "T") =
      .error (.typeError "Cannot read properties of undefined (reading 0)") ∧
    (postTranslatedMessage envC10 (some [msgBad]) "ja" "C1" "jp").1 = .ok () ∧
    countPost (postTranslatedMessage envC10 (some [msgBad]) "ja" "C1" "jp").2 = 0 := by
  have h := subtype_without_attachments_c10 envC10 [] msgBad [] (some "T") [] "ja" "C1" "jp"
    rfl (by decide) rfl rfl
  exact ⟨h.1, h.2.1, h.2.2.2.1⟩

end Reacjilator
